import Mathlib

/-
Shallow embedding of the request-admission and single-worker queue subsystem
of src/bot.py: the per-user daily usage store backed by a SQLite table
(get_user / update_user), the intake handler (handle), the FIFO download
queue, and one iteration of the downloader loop (downloader_loop).

Modelling conventions:
- UTC days are ISO date strings (the code stores today() as "YYYY-MM-DD");
  the current day is passed as an explicit parameter wherever the code calls
  today().
- The users table is an association list keyed by user_id; lookupUser is the
  SELECT, get_user follows bot.py lines 66-76 (lazy row creation), and
  update_user follows lines 78-83: a SQL UPDATE rewrites every row matching
  the key and touches nothing when no row matches.
- External collaborators (the subscription check, the fetch tool, the
  notifier) are inputs: a Bool for eligibility, a FetchOutcome plus the files
  the fetch attempt produced, and a Bool for whether send_video succeeds.
- handle additionally returns the list of mutation effects it performed, in
  order, so that the enqueue-before-charge ordering is part of the model.
-/

namespace Bot

abbrev Day := String

/-- One row of the users table: daily_count and last_day (bot.py lines 40-46). -/
structure UserRow where
  daily_count : Nat
  last_day : Day
deriving DecidableEq

abbrev Store := List (Nat × UserRow)

/-- A queued download job: the (uid, text) pair appended in handle (line 132). -/
abbrev Job := Nat × String

/-- SELECT daily_count, last_day FROM users WHERE user_id = uid (first match). -/
def lookupUser (store : Store) (uid : Nat) : Option UserRow :=
  match store with
  | [] => none
  | (k, r) :: rest => if k = uid then some r else lookupUser rest uid

/-- Embedding of get_user (bot.py lines 66-76): if no row exists, insert
(uid, 0, today) and return (0, today); otherwise return the stored row
unchanged. Returns the (count, day) pair and the store after the call. -/
def get_user (uid : Nat) (todayD : Day) (store : Store) : (Nat × Day) × Store :=
  match lookupUser store uid with
  | none => ((0, todayD), (uid, ⟨0, todayD⟩) :: store)
  | some r => ((r.daily_count, r.last_day), store)

/-- Embedding of update_user (bot.py lines 78-83): SQL UPDATE sets
(daily_count, last_day) on every row whose key matches uid and leaves the
store untouched when no row matches. -/
def update_user (uid : Nat) (count : Nat) (day : Day) : Store → Store
  | [] => []
  | (k, r) :: rest =>
      (k, if k = uid then ⟨count, day⟩ else r) :: update_user uid count day rest

def DAILY_LIMIT : Nat := 4

/-- The in-memory reset of bot.py lines 123-125: if the stored day differs
from today, both count and day are replaced by (0, today); otherwise the
row is used as stored. -/
def refreshRow (row : UserRow) (todayD : Day) : UserRow :=
  if row.last_day ≠ todayD then ⟨0, todayD⟩ else row

/-- The count value handle bases its quota decision and charge on (bot.py
lines 122-125): for a user with a stored row, the stored count after the
stale-day reset; for a user with no row yet, the 0 that get_user returns
while lazily creating the row. -/
def effective_count (store : Store) (uid : Nat) (todayD : Day) : Nat :=
  match lookupUser store uid with
  | none => 0
  | some r => (refreshRow r todayD).daily_count

/-- Mutable process state touched by handle: the users table and the
download_queue deque. -/
structure BotState where
  store : Store
  queue : List Job
deriving DecidableEq

/-- Outcome of one call to handle, as seen by the user. -/
inductive SubmitResult where
  | notEligible
  | quotaExceeded
  | accepted (pos : Nat)
deriving DecidableEq

/-- A state mutation performed by handle, recorded in execution order. -/
inductive Effect where
  | enqueued (uid : Nat) (url : String)
  | charged (uid : Nat) (count : Nat) (day : Day)
deriving DecidableEq

/-- Embedding of handle (bot.py lines 114-136). subscribed is the result of
the external is_subscribed check; todayD is the value of today() during the
call. Returns the result, the state after the call, and the mutation
effects in the order the code performs them (append to the queue, then
update_user). -/
def handle (uid : Nat) (text : String) (subscribed : Bool) (todayD : Day)
    (s : BotState) : SubmitResult × BotState × List Effect :=
  if !subscribed then (.notEligible, s, [])
  else
    let gr := get_user uid todayD s.store
    let store1 := gr.2
    let row := refreshRow ⟨gr.1.1, gr.1.2⟩ todayD
    if row.daily_count ≥ DAILY_LIMIT then
      (.quotaExceeded, ⟨store1, s.queue⟩, [])
    else
      let queue1 := s.queue ++ [(uid, text)]
      let pos := queue1.length
      let store2 := update_user uid (row.daily_count + 1) row.last_day store1
      (.accepted pos, ⟨store2, queue1⟩,
        [.enqueued uid text, .charged uid (row.daily_count + 1) row.last_day])

/-- Enqueue under the queue lock (bot.py lines 131-133): append and report
the length observed immediately after the append. -/
def enqueue (q : List Job) (j : Job) : List Job × Nat :=
  (q ++ [j], (q ++ [j]).length)

/-- A sequence of enqueues in submission order. -/
def enqueueAll (q : List Job) (js : List Job) : List Job :=
  js.foldl (fun acc j => (enqueue acc j).1) q

/-- Dequeue under the queue lock (bot.py lines 153-154): popleft, or none
when the deque is empty. -/
def tryDequeue (q : List Job) : Option (Job × List Job) :=
  match q with
  | [] => none
  | j :: rest => some (j, rest)

/-- One file of the output directory: its path and creation time, as used by
the max-by-getctime scan (bot.py lines 178-181). -/
structure FileEntry where
  path : String
  ctime : Nat
deriving DecidableEq

/-- Embedding of the newest-file scan (bot.py lines 178-181): Python max with
a key returns the first element attaining the maximal key, and raises on an
empty directory (modelled as none). -/
def newestFile (files : List FileEntry) : Option FileEntry :=
  match files with
  | [] => none
  | f :: rest => some (rest.foldl (fun best g => if g.ctime > best.ctime then g else best) f)

/-- Result of the external yt-dlp invocation (bot.py lines 164-169):
either the process finished with an exit code, or subprocess.run raised
TimeoutExpired after the 600-unit hard timeout. -/
inductive FetchOutcome where
  | exited (code : Int)
  | timedOut
deriving DecidableEq

/-- What one iteration of the downloader loop did, as observable outside. -/
inductive StepResult where
  | idle
  | failureNotified (uid : Nat)
  | delivered (uid : Nat) (path : String)
  | errorLogged
deriving DecidableEq

/-- Embedding of one iteration of downloader_loop (bot.py lines 147-188).
dir is the output directory before the iteration; produced are the files the
fetch attempt adds to it; sendOk says whether send_video succeeds. A raised
TimeoutExpired, an empty-directory max call, and a failed send_video all
land in the generic except handler (lines 186-188), which only logs and
pauses. Returns the observable result, the queue after the iteration, and
the directory contents after the iteration. -/
def downloaderStep (queue : List Job) (dir : List FileEntry)
    (outcome : FetchOutcome) (produced : List FileEntry) (sendOk : Bool) :
    StepResult × List Job × List FileEntry :=
  match queue with
  | [] => (.idle, [], dir)
  | (uid, _url) :: rest =>
    let dirAfter := dir ++ produced
    match outcome with
    | .timedOut => (.errorLogged, rest, dirAfter)
    | .exited code =>
      if code ≠ 0 then
        (.failureNotified uid, rest, dirAfter)
      else
        match newestFile dirAfter with
        | none => (.errorLogged, rest, dirAfter)
        | some f =>
          if sendOk then
            (.delivered uid f.path, rest, dirAfter.filter (fun g => g.path ≠ f.path))
          else
            (.errorLogged, rest, dirAfter)

/-- Drain the queue through tryDequeue: the list of jobs in removal order. -/
def drain (q : List Job) : List Job :=
  match hq : tryDequeue q with
  | none => []
  | some jr => jr.1 :: drain jr.2
termination_by q.length
decreasing_by
  cases q with
  | nil => exact absurd hq (by simp [tryDequeue])
  | cons a t =>
      have hj : jr = (a, t) := by
        have := hq
        simp [tryDequeue] at this
        exact this.symm
      simp [hj]

theorem drain_nil : drain [] = [] := by
  rw [drain]
  rfl

theorem drain_cons (j : Job) (t : List Job) : drain (j :: t) = j :: drain t := by
  rw [drain]
  rfl

theorem drain_eq (q : List Job) : drain q = q := by
  induction q with
  | nil => exact drain_nil
  | cons j t ih => rw [drain_cons, ih]

theorem enqueueAll_eq (js : List Job) : ∀ q, enqueueAll q js = q ++ js := by
  induction js with
  | nil => intro q; simp [enqueueAll]
  | cons j rest ih =>
      intro q
      have hstep : enqueueAll q (j :: rest) = enqueueAll (q ++ [j]) rest := rfl
      rw [hstep, ih (q ++ [j]), List.append_assoc, List.singleton_append]

theorem lookup_update_self (uid : Nat) (c : Nat) (d : Day) :
    ∀ store : Store,
      lookupUser (update_user uid c d store) uid
        = (lookupUser store uid).map (fun _ => UserRow.mk c d) := by
  intro store
  induction store with
  | nil => rfl
  | cons kr rest ih =>
      obtain ⟨k, r⟩ := kr
      by_cases hk : k = uid
      · simp [update_user, lookupUser, hk]
      · simp [update_user, lookupUser, hk, ih]

theorem update_user_not_found (uid : Nat) (c : Nat) (d : Day) :
    ∀ store : Store, lookupUser store uid = none → update_user uid c d store = store := by
  intro store
  induction store with
  | nil => intro _; rfl
  | cons kr rest ih =>
      obtain ⟨k, r⟩ := kr
      intro h
      by_cases hk : k = uid
      · simp [lookupUser, hk] at h
      · simp [lookupUser, hk] at h
        simp [update_user, hk, ih h]

theorem refreshRow_last_day (r : UserRow) (t : Day) : (refreshRow r t).last_day = t := by
  unfold refreshRow
  split
  · rfl
  · rename_i h
    simpa using h

theorem refreshRow_same_day (r : UserRow) : refreshRow r r.last_day = r := by
  simp [refreshRow]

theorem handle_found (uid : Nat) (text : String) (t : Day) (s : BotState)
    (r : UserRow) (h : lookupUser s.store uid = some r) :
    handle uid text true t s =
      if (refreshRow r t).daily_count ≥ DAILY_LIMIT then
        (.quotaExceeded, ⟨s.store, s.queue⟩, [])
      else
        (.accepted (s.queue.length + 1),
         ⟨update_user uid ((refreshRow r t).daily_count + 1)
            (refreshRow r t).last_day s.store,
          s.queue ++ [(uid, text)]⟩,
         [.enqueued uid text,
          .charged uid ((refreshRow r t).daily_count + 1)
            (refreshRow r t).last_day]) := by
  unfold handle get_user
  rw [h]
  simp

theorem handle_fresh (uid : Nat) (text : String) (t : Day) (s : BotState)
    (h : lookupUser s.store uid = none) :
    handle uid text true t s =
      (.accepted (s.queue.length + 1),
       ⟨update_user uid 1 t ((uid, ⟨0, t⟩) :: s.store), s.queue ++ [(uid, text)]⟩,
       [.enqueued uid text, .charged uid 1 t]) := by
  unfold handle get_user
  rw [h]
  simp [refreshRow, DAILY_LIMIT]

/-- Claim C1: Quota boundary. For a subscribed user with a stored row whose
effective daily count (after the stale-day reset) equals DAILY_LIMIT, handle
rejects with quotaExceeded and the queue is unchanged; when the effective
count equals DAILY_LIMIT - 1, handle accepts and the stored count becomes
DAILY_LIMIT for today. -/
theorem quota_boundary (uid : Nat) (text : String) (todayD : Day)
    (s : BotState) (r : UserRow) (h : lookupUser s.store uid = some r) :
    ((refreshRow r todayD).daily_count = DAILY_LIMIT →
        (handle uid text true todayD s).1 = .quotaExceeded ∧
        (handle uid text true todayD s).2.1.queue = s.queue) ∧
    ((refreshRow r todayD).daily_count = DAILY_LIMIT - 1 →
        (handle uid text true todayD s).1 = .accepted (s.queue.length + 1) ∧
        lookupUser (handle uid text true todayD s).2.1.store uid
          = some ⟨DAILY_LIMIT, todayD⟩) := by
  rw [handle_found uid text todayD s r h]
  constructor
  · intro hc
    rw [if_pos hc.ge]
    exact ⟨rfl, rfl⟩
  · intro hc
    rw [if_neg (by rw [hc]; decide)]
    refine ⟨rfl, ?_⟩
    show lookupUser (update_user uid _ _ s.store) uid = _
    rw [lookup_update_self, h, refreshRow_last_day, hc]
    rfl

/-- Witness for C1 at concrete inputs: a user at count 4 today is rejected,
and a user at count 3 today ends stored at count 4. -/
theorem quota_boundary_witness :
    (handle 7 "u" true ("2024-01-02") ⟨[(7, ⟨4, "2024-01-02"⟩)], []⟩).1
      = .quotaExceeded ∧
    lookupUser
        (handle 7 "u" true ("2024-01-02") ⟨[(7, ⟨3, "2024-01-02"⟩)], []⟩).2.1.store 7
      = some ⟨4, "2024-01-02"⟩ :=
  ⟨((quota_boundary 7 "u" ("2024-01-02") ⟨[(7, ⟨4, "2024-01-02"⟩)], []⟩
      ⟨4, "2024-01-02"⟩ (by decide)).1 (by decide)).1,
   ((quota_boundary 7 "u" ("2024-01-02") ⟨[(7, ⟨3, "2024-01-02"⟩)], []⟩
      ⟨3, "2024-01-02"⟩ (by decide)).2 (by decide)).2⟩

/-- Claim C2: Stale-day reset. When the stored last_day differs from today,
the count used for the quota decision is 0 (so a subscribed user is always
accepted), the accepted submission stores (1, today), and the reset happens
exactly once per day boundary: re-reading the stored row on the same day
keeps its count, while a later different day resets to 0 again. -/
theorem stale_reset (uid : Nat) (text : String) (t t2 : Day) (s : BotState)
    (r : UserRow) (h : lookupUser s.store uid = some r) (hst : r.last_day ≠ t) :
    (refreshRow r t).daily_count = 0 ∧
    (handle uid text true t s).1 = .accepted (s.queue.length + 1) ∧
    lookupUser (handle uid text true t s).2.1.store uid = some ⟨1, t⟩ ∧
    refreshRow ⟨1, t⟩ t = ⟨1, t⟩ ∧
    (t2 ≠ t → (refreshRow ⟨1, t⟩ t2).daily_count = 0) := by
  have hr : refreshRow r t = ⟨0, t⟩ := by simp [refreshRow, hst]
  rw [handle_found uid text t s r h, hr]
  rw [if_neg (by simp [DAILY_LIMIT])]
  refine ⟨rfl, rfl, ?_, by simp [refreshRow], fun h2 => ?_⟩
  · show lookupUser (update_user uid _ _ s.store) uid = _
    rw [lookup_update_self, h]
    rfl
  · simp [refreshRow, Ne.symm h2]

/-- Witness for C2: a user stored at (2, 2024-01-01) submitting on 2024-01-02
is accepted with position 1 and ends stored at (1, 2024-01-02). -/
theorem stale_reset_witness :
    (handle 7 "u" true ("2024-01-02") ⟨[(7, ⟨2, "2024-01-01"⟩)], []⟩).1
      = .accepted 1 ∧
    lookupUser
        (handle 7 "u" true ("2024-01-02") ⟨[(7, ⟨2, "2024-01-01"⟩)], []⟩).2.1.store 7
      = some ⟨1, "2024-01-02"⟩ :=
  have hmain := stale_reset 7 "u" ("2024-01-02") ("2024-01-03")
    ⟨[(7, ⟨2, "2024-01-01"⟩)], []⟩ ⟨2, "2024-01-01"⟩ (by decide) (by decide)
  ⟨hmain.2.1, hmain.2.2.1⟩

/-- Claim C5: Rejection atomicity. Any submission rejected as notEligible or
quotaExceeded leaves the whole state (store and queue) unchanged and performs
no mutation effects: nothing is enqueued and no quota charge is written. -/
theorem reject_atomic (uid : Nat) (text : String) (sub : Bool) (t : Day)
    (s : BotState)
    (h : (handle uid text sub t s).1 = .notEligible ∨
         (handle uid text sub t s).1 = .quotaExceeded) :
    (handle uid text sub t s).2.1 = s ∧ (handle uid text sub t s).2.2 = [] := by
  cases sub with
  | false => exact ⟨rfl, rfl⟩
  | true =>
      cases hl : lookupUser s.store uid with
      | none =>
          rw [handle_fresh uid text t s hl] at h
          rcases h with h | h <;> exact absurd h (by simp)
      | some r =>
          rw [handle_found uid text t s r hl] at h ⊢
          by_cases hge : (refreshRow r t).daily_count ≥ DAILY_LIMIT
          · rw [if_pos hge]
            exact ⟨rfl, rfl⟩
          · rw [if_neg hge] at h
            rcases h with h | h <;> exact absurd h (by simp)

/-- Witness for C5: a quota-rejected submission leaves the concrete state
exactly as it was. -/
theorem reject_atomic_witness :
    (handle 7 "u" true ("2024-01-01") ⟨[(7, ⟨4, "2024-01-01"⟩)], []⟩).2.1
        = ⟨[(7, ⟨4, "2024-01-01"⟩)], []⟩ ∧
    (handle 7 "u" true ("2024-01-01") ⟨[(7, ⟨4, "2024-01-01"⟩)], []⟩).2.2 = [] :=
  reject_atomic 7 "u" true ("2024-01-01") ⟨[(7, ⟨4, "2024-01-01"⟩)], []⟩
    (Or.inr (by decide))

/-- Claim C6: Accepted-submission sequence and result. Every accepted
submission appends the job to the queue, reports the 1-based position equal
to the queue length observed right after the append, and the effect list
shows the enqueue strictly before the quota charge, whose amount is exactly
the effective prior count plus one with day = today — and that pair is what
the store then holds for the user. -/
theorem accepted_sequence (uid : Nat) (text : String) (todayD : Day)
    (s : BotState) (pos : Nat)
    (h : (handle uid text true todayD s).1 = .accepted pos) :
    (handle uid text true todayD s).2.1.queue = s.queue ++ [(uid, text)] ∧
    pos = s.queue.length + 1 ∧
    pos = (handle uid text true todayD s).2.1.queue.length ∧
    (handle uid text true todayD s).2.2
        = [.enqueued uid text,
           .charged uid (effective_count s.store uid todayD + 1) todayD] ∧
    lookupUser (handle uid text true todayD s).2.1.store uid
        = some ⟨effective_count s.store uid todayD + 1, todayD⟩ := by
  cases hl : lookupUser s.store uid with
  | none =>
      rw [handle_fresh uid text todayD s hl] at h ⊢
      have hp : pos = s.queue.length + 1 := by simpa using h.symm
      have he : effective_count s.store uid todayD = 0 := by
        simp [effective_count, hl]
      refine ⟨rfl, hp, by simp [hp], by rw [he], ?_⟩
      show lookupUser (update_user uid 1 todayD ((uid, ⟨0, todayD⟩) :: s.store)) uid = _
      rw [lookup_update_self, he]
      simp [lookupUser]
  | some r =>
      rw [handle_found uid text todayD s r hl] at h ⊢
      by_cases hge : (refreshRow r todayD).daily_count ≥ DAILY_LIMIT
      · rw [if_pos hge] at h
        exact absurd h (by simp)
      · rw [if_neg hge] at h ⊢
        have hp : pos = s.queue.length + 1 := by simpa using h.symm
        have he : effective_count s.store uid todayD
            = (refreshRow r todayD).daily_count := by
          simp [effective_count, hl]
        refine ⟨rfl, hp, by simp [hp], ?_, ?_⟩
        · rw [refreshRow_last_day, he]
        · show lookupUser (update_user uid _ _ s.store) uid = _
          rw [lookup_update_self, hl, refreshRow_last_day, he]
          rfl

/-- Witness for C6: a user already at count 2 today submits again: the job is
appended at position 1, the effects are enqueue then a charge of exactly
2 + 1 = 3 for today, and the store then holds (3, today). -/
theorem accepted_sequence_witness :
    (handle 7 "u" true ("2024-01-01") ⟨[(7, ⟨2, "2024-01-01"⟩)], []⟩).2.1.queue
        = [(7, "u")] ∧
    (handle 7 "u" true ("2024-01-01") ⟨[(7, ⟨2, "2024-01-01"⟩)], []⟩).2.2
        = [.enqueued 7 "u", .charged 7 3 ("2024-01-01")] ∧
    lookupUser
        (handle 7 "u" true ("2024-01-01") ⟨[(7, ⟨2, "2024-01-01"⟩)], []⟩).2.1.store 7
        = some ⟨3, "2024-01-01"⟩ :=
  have hmain := accepted_sequence 7 "u" ("2024-01-01")
    ⟨[(7, ⟨2, "2024-01-01"⟩)], []⟩ 1 (by decide)
  ⟨hmain.1, hmain.2.2.2.1, hmain.2.2.2.2⟩

/-- Counterexample for C7: on a store with no row for user 1, the SQL UPDATE
of update_user matches nothing, so afterwards user 1 still has no stored
(count, day) pair — the overwrite is not unconditional for every user_id. -/
theorem increment_missing_row_cex :
    ¬ lookupUser (update_user 1 5 ("2024-01-01") ([] : Store)) 1
        = some ⟨5, "2024-01-01"⟩ := by
  decide

/-- Claim C7 (amended): update_user overwrites the stored (count, day) pair
for any user_id that has a row, regardless of the previous value, and for a
user_id with no row it writes nothing at all (the store is unchanged and no
error arises). -/
theorem increment_overwrite (uid : Nat) (c : Nat) (d : Day) (store : Store) :
    lookupUser (update_user uid c d store) uid
      = (lookupUser store uid).map (fun _ => UserRow.mk c d) ∧
    (lookupUser store uid = none → update_user uid c d store = store) :=
  ⟨lookup_update_self uid c d store, update_user_not_found uid c d store⟩

/-- Witness for C7 (amended): an existing row is overwritten whatever it
held, and updating an absent user leaves the empty store empty. -/
theorem increment_overwrite_witness :
    lookupUser (update_user 7 5 ("2024-01-01") [(7, ⟨2, "2023-12-31"⟩)]) 7
      = some ⟨5, "2024-01-01"⟩ ∧
    update_user 9 5 ("2024-01-01") ([] : Store) = [] :=
  ⟨by rw [(increment_overwrite 7 5 ("2024-01-01") [(7, ⟨2, "2023-12-31"⟩)]).1]; rfl,
   (increment_overwrite 9 5 ("2024-01-01") []).2 rfl⟩

/-- Claim C8: GetAndRefresh idempotence. Two successive get_user calls with
no intervening update_user return identical (count, day) pairs and the second
call does not change the store; and the first call on a user with no row
creates it with count 0 and day today and returns exactly that. -/
theorem getAndRefresh_idem (uid : Nat) (t1 t2 : Day) (store : Store) :
    ((get_user uid t2 (get_user uid t1 store).2).1 = (get_user uid t1 store).1 ∧
     (get_user uid t2 (get_user uid t1 store).2).2 = (get_user uid t1 store).2) ∧
    (lookupUser store uid = none →
      (get_user uid t1 store).1 = (0, t1) ∧
      lookupUser (get_user uid t1 store).2 uid = some ⟨0, t1⟩) := by
  cases hl : lookupUser store uid with
  | none =>
      refine ⟨⟨?_, ?_⟩, fun _ => ⟨?_, ?_⟩⟩ <;> simp [get_user, hl, lookupUser]
  | some r =>
      refine ⟨⟨?_, ?_⟩, fun hn => ?_⟩
      · simp [get_user, hl]
      · simp [get_user, hl]
      · exact absurd hn (by simp)

/-- Witness for C8: on the empty store, the first call for user 7 creates and
returns (0, today), and the second call returns the same pair. -/
theorem getAndRefresh_idem_witness :
    (get_user 7 ("2024-01-02") (get_user 7 ("2024-01-01") ([] : Store)).2).1
      = (get_user 7 ("2024-01-01") ([] : Store)).1 ∧
    (get_user 7 ("2024-01-01") ([] : Store)).1 = (0, "2024-01-01") :=
  have hmain := getAndRefresh_idem 7 ("2024-01-01") ("2024-01-02") []
  ⟨hmain.1.1, (hmain.2 rfl).1⟩

/-- Claim C9: FIFO order. Draining the queue through tryDequeue yields
exactly the enqueue order: after any sequence of enqueues the removal order
is the prior contents followed by the enqueued jobs in submission order, with
no reordering and no priority. -/
theorem fifo_order (q js : List Job) :
    drain (enqueueAll q js) = drain q ++ js ∧ drain (enqueueAll [] js) = js := by
  constructor
  · rw [enqueueAll_eq js q, drain_eq, drain_eq]
  · rw [enqueueAll_eq js [], drain_eq]
    rfl

/-- Claim C10: Read-only frame of get_user for existing users. When a row
exists, get_user writes nothing (the store is returned unchanged) and returns
the stored pair as is, even when it is stale; a quota-rejected handle call
also leaves the store unchanged, and an accepted call persists the reset
only through the update_user charge (count+1, today). -/
theorem get_user_frame (uid : Nat) (text : String) (t : Day) (q : List Job)
    (store : Store) (r : UserRow) (h : lookupUser store uid = some r) :
    (get_user uid t store).2 = store ∧
    (get_user uid t store).1 = (r.daily_count, r.last_day) ∧
    ((handle uid text true t ⟨store, q⟩).1 = .quotaExceeded →
        (handle uid text true t ⟨store, q⟩).2.1.store = store) ∧
    (∀ p, (handle uid text true t ⟨store, q⟩).1 = .accepted p →
        (handle uid text true t ⟨store, q⟩).2.1.store
          = update_user uid ((refreshRow r t).daily_count + 1) t store) := by
  refine ⟨by simp [get_user, h], by simp [get_user, h], ?_, ?_⟩
  · intro hqe
    rw [handle_found uid text t ⟨store, q⟩ r h] at hqe ⊢
    by_cases hge : (refreshRow r t).daily_count ≥ DAILY_LIMIT
    · rw [if_pos hge]
    · rw [if_neg hge] at hqe
      exact absurd hqe (by simp)
  · intro p hacc
    rw [handle_found uid text t ⟨store, q⟩ r h] at hacc ⊢
    by_cases hge : (refreshRow r t).daily_count ≥ DAILY_LIMIT
    · rw [if_pos hge] at hacc
      exact absurd hacc (by simp)
    · rw [if_neg hge, refreshRow_last_day]

/-- Witness for C10: reading an existing stale row changes nothing in the
store and returns the stored pair. -/
theorem get_user_frame_witness :
    (get_user 7 ("2024-01-02") [(7, ⟨1, "2024-01-01"⟩)]).2
        = [(7, ⟨1, "2024-01-01"⟩)] ∧
    (get_user 7 ("2024-01-02") [(7, ⟨1, "2024-01-01"⟩)]).1 = (1, "2024-01-01") :=
  have hmain := get_user_frame 7 "u" ("2024-01-02") [] [(7, ⟨1, "2024-01-01"⟩)]
    ⟨1, "2024-01-01"⟩ (by decide)
  ⟨hmain.1, hmain.2.1⟩

/-- Counterexample for C3: one queued job, the fetch exits zero having
produced downloads/7_1.mp4, and send_video raises; control lands in the
generic except handler, os.remove is skipped, and the file is still in the
output directory — deletion is not unconditional. -/
theorem success_cleanup_cex :
    FileEntry.mk ("downloads/7_1.mp4") 10 ∈
      (downloaderStep [(7, "u")] [] (.exited 0)
        [⟨"downloads/7_1.mp4", 10⟩] false).2.2 ∧
    (downloaderStep [(7, "u")] [] (.exited 0)
        [⟨"downloads/7_1.mp4", 10⟩] false).1 = .errorLogged := by
  decide

/-- Claim C3 (amended): on a zero-exit fetch the Downloader locates the
newest file in the output directory and attempts delivery; the local copy is
deleted only when the notifier send succeeds — when send_video raises, the
iteration ends in the generic except handler and the file remains. -/
theorem success_cleanup (uid : Nat) (url : String) (rest : List Job)
    (dir produced : List FileEntry) (f : FileEntry)
    (hf : newestFile (dir ++ produced) = some f) :
    downloaderStep ((uid, url) :: rest) dir (.exited 0) produced true
        = (.delivered uid f.path, rest,
           (dir ++ produced).filter (fun g => g.path ≠ f.path)) ∧
    downloaderStep ((uid, url) :: rest) dir (.exited 0) produced false
        = (.errorLogged, rest, dir ++ produced) := by
  constructor <;> simp [downloaderStep, hf]

/-- Witness for C3 (amended): when the send succeeds the produced file is
delivered and removed; when it fails the file stays. -/
theorem success_cleanup_witness :
    downloaderStep [(7, "u")] [] (.exited 0) [⟨"downloads/7_1.mp4", 10⟩] true
        = (.delivered 7 ("downloads/7_1.mp4"), [], []) ∧
    downloaderStep [(7, "u")] [] (.exited 0) [⟨"downloads/7_1.mp4", 10⟩] false
        = (.errorLogged, [], [⟨"downloads/7_1.mp4", 10⟩]) := by
  have hmain := success_cleanup 7 "u" [] [] [⟨"downloads/7_1.mp4", 10⟩]
    ⟨"downloads/7_1.mp4", 10⟩ (by decide)
  rw [hmain.1, hmain.2]
  exact ⟨by decide, by decide⟩

/-- Counterexample for C4: a fetch that exits non-zero after producing a
partial file: the user is notified and the job dropped, but nothing is
deleted, so the partial file remains in the output directory. -/
theorem failure_path_cex :
    (downloaderStep [(7, "u")] [] (.exited 1)
        [⟨"downloads/7_1.mp4.part", 5⟩] true).1 = .failureNotified 7 ∧
    FileEntry.mk ("downloads/7_1.mp4.part") 5 ∈
      (downloaderStep [(7, "u")] [] (.exited 1)
        [⟨"downloads/7_1.mp4.part", 5⟩] true).2.2 := by
  decide

/-- Claim C4 (amended): on a non-zero exit the Downloader notifies the user
of failure and drops the job without retry or requeue (the queue is one job
shorter), but performs no cleanup — whatever the fetch wrote stays in the
output directory; a timeout raises into the generic except handler, which
only logs and pauses: the job is dropped with no user notification and no
cleanup. -/
theorem failure_path (uid : Nat) (url : String) (rest : List Job)
    (dir produced : List FileEntry) (code : Int) (sendOk : Bool)
    (hc : code ≠ 0) :
    downloaderStep ((uid, url) :: rest) dir (.exited code) produced sendOk
        = (.failureNotified uid, rest, dir ++ produced) ∧
    downloaderStep ((uid, url) :: rest) dir .timedOut produced sendOk
        = (.errorLogged, rest, dir ++ produced) := by
  constructor
  · simp [downloaderStep, hc]
  · simp [downloaderStep]

/-- Witness for C4 (amended): a non-zero exit notifies the user and shortens
the queue by one, leaving the directory as the fetch left it. -/
theorem failure_path_witness :
    downloaderStep [(7, "u")] [] (.exited 1) [] true
        = (.failureNotified 7, [], []) ∧
    downloaderStep [(7, "u")] [] .timedOut [] true = (.errorLogged, [], []) :=
  have hmain := failure_path 7 "u" [] [] [] 1 true (by decide)
  ⟨by simpa using hmain.1, by simpa using hmain.2⟩

end Bot
